import Mathlib

/-!
Verification development for the sheep repository.

The Python source under `src/sheep` is shallowly embedded below:
pure helpers become Lean functions, the workflow steps of the code
implementation flow become explicit state-passing functions over a
`FlowState` record together with an oracle environment (`FlowEnv`)
describing the outcomes of the external actions (git tool calls and
LLM crew invocations), and raised exceptions are modelled with
`Except`.  Python `float` arithmetic is modelled with exact real
numbers `ℝ`; Python's unicode-aware `str.lower`/`str.isalnum` are
modelled with `Char.toLower`/`Char.isAlphanum`, which agree on ASCII.
-/

/-! ## Shannon entropy (src/sheep/models/spec.py) -/

/-- Keys of a Python `collections.Counter` built from a list: the
distinct elements in first-occurrence order. -/
def firstOccur : List Char → List Char
  | [] => []
  | c :: t => c :: firstOccur (t.filter (fun x => x != c))
termination_by l => l.length
decreasing_by
  simp only [List.length_cons]
  have := List.length_filter_le (fun x => x != c) t
  omega

/-- Model of `collections.Counter(text)`: each distinct character of
the text paired with its number of occurrences, keys in
first-occurrence order (Python dict iteration order). -/
def pyCounter (l : List Char) : List (Char × Nat) :=
  (firstOccur l).map (fun c => (c, l.count c))

/-- Embedding of `compute_shannon_entropy` (src/sheep/models/spec.py,
lines 11-21): `0.0` for the empty string, otherwise
`-sum((c / total) * log2(c / total) for c in counts.values())`
with `counts = Counter(text)` and `total = len(text)` (here inlined as
`text.length`).  The Python `float` result is modelled as a real
number. -/
noncomputable def compute_shannon_entropy (text : String) : ℝ :=
  if text = "" then 0
  else
    -(((pyCounter text.data).map
        (fun p => ((p.2 : ℝ) / (text.length : ℝ)) *
          Real.logb 2 ((p.2 : ℝ) / (text.length : ℝ)))).sum)

/-- The spec's formula, written from the spec's words: the sum of
`p_i * log2 p_i` over each distinct character, with
`p_i = count_i / len`, negated. -/
noncomputable def entropy_formula (l : List Char) : ℝ :=
  -(∑ c ∈ l.toFinset,
      ((l.count c : ℝ) / l.length) * Real.logb 2 ((l.count c : ℝ) / l.length))

/-! ## Spec input validation (src/sheep/models/spec.py) -/

/-- Modelled from the spec: the settings field `spec_min_chars` is
absent from src/sheep/config/settings.py (only its tests exist in the
snapshot); per the spec the minimum-length threshold is "configurable,
default 20". -/
def spec_min_chars : ℕ := 20

/-- Modelled from the spec: the settings field `spec_min_entropy` is
absent from src/sheep/config/settings.py (only its tests exist in the
snapshot); per the spec the entropy threshold is "configurable, default
2.5 bits/char". -/
noncomputable def spec_min_entropy : ℝ := 5 / 2

/-- The message of the `ValueError` raised by `validate_user_query`
when the length check fails, built exactly as the Python f-string. -/
def too_short_msg (n minChars : ℕ) : String :=
  "[input_too_short] Input is " ++ toString n ++ " characters; minimum is " ++
    toString minChars ++ ". Describe the feature in plain English, at least " ++
    toString minChars ++ " characters."

/-- The message of the `ValueError` raised by `validate_user_query`
when the entropy check fails.  The two rendered numbers
(`{entropy:.2f}` and `{min_entropy}`) are passed in already formatted,
since Python float formatting is outside the embedding. -/
def low_entropy_msg (entropyStr minEntropyStr : String) : String :=
  "[input_low_entropy] Input appears to be gibberish or repetitive (entropy " ++
    entropyStr ++ " bits/char; minimum is " ++ minEntropyStr ++
    "). Describe the feature in plain English with varied, meaningful words."

open Classical in
/-- Embedding of `SpecInput.validate_user_query` (src/sheep/models/spec.py,
lines 33-56).  A raised `ValueError` is `Except.error` carrying the
message; the thresholds that the source reads from the settings
singleton are parameters, as are the two float renderings used in the
low-entropy message. -/
noncomputable def validate_user_query (fmt2f fmtF : ℝ → String)
    (minChars : ℕ) (minEntropy : ℝ) (value : String) : Except String String :=
  if value.length < minChars then
    Except.error (too_short_msg value.length minChars)
  else if compute_shannon_entropy value < minEntropy then
    Except.error
      (low_entropy_msg (fmt2f (compute_shannon_entropy value)) (fmtF minEntropy))
  else
    Except.ok value

/-! ## Branch-name slug (src/sheep/flows/code_implementation.py, lines 102-109) -/

/-- Embedding of the slug computation in `setup_branch`:
`slug = issue[:50].lower()`, every non-alphanumeric character replaced
by a hyphen, then `"-".join(filter(None, slug.split("-")))` which
collapses hyphen runs and strips leading/trailing hyphens. -/
def slugify (issue : List Char) : List Char :=
  let s1 := (issue.take 50).map Char.toLower
  let s2 := s1.map (fun c => if c.isAlphanum then c else '-')
  List.intercalate ['-'] ((s2.splitOn '-').filter (fun p => !p.isEmpty))

/-- The slug as the spec words it (no truncation): the issue text
lowercased, non-alphanumeric characters replaced by hyphens, hyphen
runs collapsed, leading/trailing hyphens stripped. -/
def slug_spec (issue : String) : String :=
  let s1 := issue.data.map Char.toLower
  let s2 := s1.map (fun c => if c.isAlphanum then c else '-')
  String.mk (List.intercalate ['-'] ((s2.splitOn '-').filter (fun p => !p.isEmpty)))

/-! ## The code implementation flow (src/sheep/flows/code_implementation.py)

The flow's mutable `CodeImplementationState` is the record below; each
step function takes the outcome oracle `FlowEnv` describing the
external world (git tools, LLM crew invocations) and returns the
updated state together with the signal string the Python step returns.
A crew/tool invocation that raises is an `Except.error` carrying the
exception text. -/

structure FlowState where
  repo_path : String := ""
  issue_description : String := ""
  branch_name : Option String := none
  use_worktree : Bool := false
  auto_push : Bool := true
  working_path : Option String := none
  research_findings : Option String := none
  files_to_modify : List String := []
  implementation_plan : Option String := none
  changes_made : Option String := none
  commit_message : Option String := none
  review_result : Option String := none
  review_passed : Bool := false
  review_iterations : Nat := 0
  pushed : Bool := false
  final_status : String := "pending"
  error : Option String := none
deriving DecidableEq

/-- Oracle for the flow's external actions.  `resolve` models
`Path(...).resolve()`, `parentDir` the parent directory used for
worktrees; each `Except` is the outcome of the corresponding external
call (`ok` with its result text, `error` with the text of the raised
exception).  `implement` and `review` are indexed so that each loop
iteration may have a different outcome: `implement` by the value of
`review_iterations` when the step starts, `review` by the value after
the step's increment. -/
structure FlowEnv where
  repoExists : Bool
  resolve : String → String
  parentDir : String
  branchPrefix : String
  setupTool : Except String String
  research : Except String String
  implement : Nat → Except String String
  review : Nat → Except String String
  commit : Except String String
  push : Except String String

/-- Python truthiness of the optional `branch_name` field
(`if not state.branch_name:` regenerates on `None` and on `""`). -/
def optTruthy : Option String → Bool
  | none => false
  | some s => !s.isEmpty

/-- The worktree path `repo_path.parent / f"worktree-{branch_name.replace('/', '-')}"`
(a missing branch name is impossible at this point and modelled as ""). -/
def worktreePathOf (env : FlowEnv) (s : FlowState) : String :=
  env.parentDir ++ "/worktree-" ++
    String.mk ((s.branch_name.getD "").data.map (fun c => if c = '/' then '-' else c))

/-- Embedding of `setup_branch` (lines 89-139): validates the repo
path, generates a branch name from the slug when none was supplied,
then creates the worktree or branch; any tool exception becomes the
failure path. -/
def setup_branch (env : FlowEnv) (s : FlowState) : FlowState × String :=
  if !env.repoExists then
    ({ s with error := some ("Repository path does not exist: " ++ env.resolve s.repo_path),
              final_status := "error" }, "error")
  else
    let s :=
      if optTruthy s.branch_name then s
      else { s with branch_name :=
                      some (env.branchPrefix ++ String.mk (slugify s.issue_description.data)) }
    match env.setupTool with
    | Except.ok _ =>
      if s.use_worktree then
        ({ s with working_path := some (worktreePathOf env s) }, "success")
      else
        ({ s with working_path := some (env.resolve s.repo_path) }, "success")
    | Except.error e =>
      ({ s with error := some ("Failed to setup branch: " ++ e),
                final_status := "error" }, "error")

/-- Embedding of `research_codebase` (lines 141-208): short-circuits on
an upstream error signal, otherwise stores the crew result or records
the failure. -/
def research_codebase (env : FlowEnv) (s : FlowState) (setup_result : String) :
    FlowState × String :=
  if setup_result = "error" then (s, "error")
  else
    match env.research with
    | Except.ok r => ({ s with research_findings := some r }, "success")
    | Except.error e =>
      ({ s with error := some ("Research failed: " ++ e), final_status := "error" }, "error")

/-- Embedding of `implement_changes` (lines 210-275). -/
def implement_changes (env : FlowEnv) (s : FlowState) (research_result : String) :
    FlowState × String :=
  if research_result = "error" then (s, "error")
  else
    match env.implement s.review_iterations with
    | Except.ok r => ({ s with changes_made := some r }, "success")
    | Except.error e =>
      ({ s with error := some ("Implementation failed: " ++ e),
                final_status := "error" }, "error")

/-- Embedding of `review_changes` (lines 277-358): short-circuits on an
upstream error signal; otherwise increments `review_iterations` first,
forces a pass once the incremented counter exceeds 3, else consults the
reviewer and parses the verdict case-insensitively; a reviewer
exception is fail-open (`return "passed"`, only `error` recorded). -/
def review_changes (env : FlowEnv) (s : FlowState) (impl_result : String) :
    FlowState × String :=
  if impl_result = "error" then (s, "error")
  else
    let s := { s with review_iterations := s.review_iterations + 1 }
    if s.review_iterations > 3 then
      ({ s with review_passed := true }, "passed")
    else
      match env.review s.review_iterations with
      | Except.ok verdict =>
        let s := { s with review_result := some verdict }
        let lowered := verdict.data.map Char.toLower
        if "pass".data <:+: lowered ∧ ¬ ("needs_changes".data <:+: lowered) then
          ({ s with review_passed := true }, "passed")
        else
          (s, "needs_changes")
      | Except.error e =>
        ({ s with error := some ("Review failed: " ++ e) }, "passed")

/-- Embedding of `route_after_review` (lines 360-368). -/
def route_after_review (review_result : String) : String :=
  if review_result = "passed" then "commit_and_push"
  else if review_result = "needs_changes" then "implement_changes"
  else "commit_and_push"

/-- Embedding of `commit_and_push` (lines 370-414): builds the commit
message, stores it, commits, optionally pushes, and sets the terminal
status; any exception in the tool calls becomes the failure path. -/
def commit_and_push (env : FlowEnv) (s : FlowState) : FlowState × String :=
  let body :=
    match s.changes_made with
    | some c => if c.isEmpty then "Implementation completed" else String.mk (c.data.take 500)
    | none => "Implementation completed"
  let commit_msg :=
    "feat: " ++ String.mk (s.issue_description.data.take 50) ++ "\n\n" ++
      s.issue_description ++ "\n\nChanges:\n" ++ body ++ "\n\n🐑 Generated by Sheep\n"
  let s := { s with commit_message := some commit_msg }
  match env.commit with
  | Except.error e =>
    ({ s with error := some ("Commit/push failed: " ++ e), final_status := "error" }, "error")
  | Except.ok _ =>
    if s.auto_push then
      match env.push with
      | Except.error e =>
        ({ s with error := some ("Commit/push failed: " ++ e), final_status := "error" }, "error")
      | Except.ok _ =>
        ({ s with pushed := true, final_status := "completed" }, "success")
    else
      ({ s with final_status := "completed" }, "success")

/-- The implement-review loop driven by `route_after_review`: on
`"implement_changes"` the implementation step is re-triggered with the
router's (non-error) label, otherwise `commit_and_push` runs.  The fuel
argument is an upper bound on the remaining loop iterations; the flow
is run with fuel 4, which the forced pass at the 4th review makes
sufficient from a fresh state.  Returns the chronological list of
states after each executed step, plus the final state and signal. -/
def runLoop (env : FlowEnv) : Nat → FlowState → String → List FlowState × (FlowState × String)
  | 0, s, _ => ([], (s, "stuck"))
  | fuel + 1, s, sig =>
    let p1 := implement_changes env s sig
    let p2 := review_changes env p1.1 p1.2
    if route_after_review p2.2 = "implement_changes" then
      let rest := runLoop env fuel p2.1 "implement_changes"
      (p1.1 :: p2.1 :: rest.1, rest.2)
    else
      let fin := commit_and_push env p2.1
      ([p1.1, p2.1, fin.1], fin)

/-- One full run of the code implementation flow, as the source wires
it: `setup_branch`, then `research_codebase` listening on its signal,
then the implement-review loop, which always ends in
`commit_and_push` (the router sends every non-`needs_changes` signal
there).  Returns the chronological state trace and the final state. -/
def flow_run (env : FlowEnv) (s0 : FlowState) : List FlowState × (FlowState × String) :=
  let p1 := setup_branch env s0
  let p2 := research_codebase env p1.1 p1.2
  let rest := runLoop env 4 p2.1 p2.2
  (s0 :: p1.1 :: p2.1 :: rest.1, rest.2)

/-- Modelled from the spec: the router `route_after_setup` and the
`fast_mode` state field are absent from
src/sheep/flows/code_implementation.py in this snapshot (only their
unit tests exist under tests/test_fast_mode.py); per the spec,
"`error` → terminal error; else if `fast_mode` → jump directly to
implement_changes; else → research_codebase". -/
def route_after_setup (fast_mode : Bool) (signal : String) : String :=
  if signal = "error" then "error"
  else if fast_mode then "implement_changes"
  else "research_codebase"

/-! ## Tool façade (src/sheep/tools/git_tools.py, file_tools.py) -/

/-- A Python exception crossing the tool boundary: either a
`subprocess.CalledProcessError` (carrying stderr) or any other
exception (carrying its text), e.g. the `FileNotFoundError` raised by
`subprocess.run` when the `git` executable is missing. -/
inductive PyExc where
  | calledProcessError (stderr : String)
  | otherExc (msg : String)
deriving DecidableEq

/-- A completed `subprocess.run` result. -/
structure GitProc where
  stdout : String
  stderr : String
deriving DecidableEq

/-- Oracle for the git tools: path existence and the outcome of
`subprocess.run(["git", *args], check=True, ...)`. -/
structure GitEnv where
  pathExists : String → Bool
  runGit : List String → Except PyExc GitProc

/-- Embedding of `_run_git` (git_tools.py, lines 14-28): runs the git
command; with `check=True` a nonzero exit raises
`CalledProcessError`, and an OS-level launch failure raises another
exception — both are delivered by the oracle. -/
def run_git (env : GitEnv) (args : List String) : Except PyExc GitProc :=
  env.runGit args

/-- Embedding of `GitStatusTool._run` (git_tools.py, lines 44-55): the
`try` block catches `subprocess.CalledProcessError` only, so any other
exception from `_run_git` propagates. -/
def git_status_run (env : GitEnv) (repo_path : String) : Except PyExc String :=
  if !env.pathExists repo_path then
    Except.ok ("Error: Repository path does not exist: " ++ repo_path)
  else
    match run_git env ["status", "--porcelain", "-b"] with
    | Except.ok r =>
      if r.stdout.trim.isEmpty then Except.ok "Working tree is clean, no changes."
      else Except.ok r.stdout
    | Except.error (PyExc.calledProcessError stderr) =>
      Except.ok ("Git error: " ++ stderr)
    | Except.error (PyExc.otherExc m) => Except.error (PyExc.otherExc m)

/-- Oracle for `FileReadTool`: path checks and the outcome of
`open(...).readlines()` (an exception is the error text, caught by the
source's `except Exception`). -/
structure FileEnv where
  pathExists : String → Bool
  isFile : String → Bool
  readlines : String → Except String (List String)

/-- Python `x or d` for an optional integer (`None` and `0` are falsy). -/
def pyOrInt (o : Option Int) (d : Int) : Int :=
  match o with
  | none => d
  | some v => if v = 0 then d else v

/-- Clamped index resolution of a Python slice bound. -/
def sliceBound (n : Nat) (i : Int) : Nat :=
  if i < 0 then ((n : Int) + i).toNat else min n i.toNat

/-- Python list slicing `l[a:b]`. -/
def pySlice (l : List String) (a b : Int) : List String :=
  ((l.drop (sliceBound l.length a)).take (sliceBound l.length b - sliceBound l.length a))

/-- Embedding of `FileReadTool._run` (file_tools.py, lines 33-63): path
precondition checks, optional line-range slicing, 50,000-character
truncation; the `try` block catches `Exception`, so every outcome is a
returned string. -/
def file_read_run (env : FileEnv) (file_path : String)
    (start_line end_line : Option Int) : Except PyExc String :=
  if !env.pathExists file_path then
    Except.ok ("Error: File does not exist: " ++ file_path)
  else if !env.isFile file_path then
    Except.ok ("Error: Path is not a file: " ++ file_path)
  else
    match env.readlines file_path with
    | Except.error e => Except.ok ("Error reading file: " ++ e)
    | Except.ok lines0 =>
      let lines :=
        if start_line.isSome || end_line.isSome then
          pySlice lines0 (pyOrInt start_line 1 - 1) (pyOrInt end_line lines0.length)
        else lines0
      let content := String.join lines
      let content :=
        if content.length > 50000 then String.mk (content.data.take 50000) ++ "\n... (truncated)"
        else content
      Except.ok content

/-! ## Concrete environments and states used as witnesses and counterexamples -/

/-- An environment in which every external action succeeds and the
reviewer verdict is "PASS". -/
def envAllOk : FlowEnv :=
  { repoExists := true, resolve := fun p => p, parentDir := "/parent",
    branchPrefix := "sheep/", setupTool := Except.ok "ok",
    research := Except.ok "findings", implement := fun _ => Except.ok "done",
    review := fun _ => Except.ok "PASS", commit := Except.ok "committed",
    push := Except.ok "pushed" }

/-- An environment in which the review crew raises while everything
else succeeds. -/
def envReviewBoom : FlowEnv :=
  { envAllOk with review := fun _ => Except.error "boom" }

/-- An environment whose repository path does not exist and whose
commit tool raises. -/
def envNoRepo : FlowEnv :=
  { envAllOk with repoExists := false, commit := Except.error "no repository" }

/-- A flow state whose review counter is already at 3. -/
def st3 : FlowState := { review_iterations := 3 }

/-- Initial state for the review-failure counterexample run. -/
def s0Review : FlowState :=
  { repo_path := "/r", issue_description := "fix", branch_name := some "b" }

/-- A 60-character issue description (60 letters "a"). -/
def issue60 : String :=
  "aaaaaaaaaaaaaaaaaaaaaaaaaaaaaaaaaaaaaaaaaaaaaaaaaaaaaaaaaaaa"

/-- Initial state whose issue description is `issue60` and whose branch
name is not supplied. -/
def s0Slug : FlowState := { repo_path := "/r", issue_description := issue60 }

/-- A git environment in which the repo path exists but launching the
git subprocess itself fails (e.g. the `git` binary is missing). -/
def envGitBroken : GitEnv :=
  { pathExists := fun _ => true,
    runGit := fun _ => Except.error (PyExc.otherExc "git executable not found") }

/-- A git environment in which every git command completes. -/
def envGitOk : GitEnv :=
  { pathExists := fun _ => true,
    runGit := fun _ => Except.ok { stdout := "M file.py", stderr := "" } }

theorem mem_firstOccur : ∀ {l : List Char} {x : Char}, x ∈ firstOccur l ↔ x ∈ l := by
  intro l
  induction l using firstOccur.induct with
  | case1 => intro x; simp [firstOccur]
  | case2 c t ih =>
    intro x
    simp only [firstOccur, List.mem_cons, ih, List.mem_filter, bne_iff_ne, ne_eq,
      decide_eq_true_eq]
    constructor
    · rintro (rfl | ⟨hx, _⟩)
      · exact Or.inl rfl
      · exact Or.inr hx
    · rintro (rfl | hx)
      · exact Or.inl rfl
      · by_cases hxc : x = c
        · exact Or.inl hxc
        · exact Or.inr ⟨hx, hxc⟩

theorem nodup_firstOccur : ∀ (l : List Char), (firstOccur l).Nodup := by
  intro l
  induction l using firstOccur.induct with
  | case1 => simp [firstOccur]
  | case2 c t ih =>
    simp only [firstOccur, List.nodup_cons]
    refine ⟨fun hc => ?_, ih⟩
    have := mem_firstOccur.mp hc
    simp [List.mem_filter] at this

theorem toFinset_firstOccur (l : List Char) : (firstOccur l).toFinset = l.toFinset := by
  ext x
  simp [List.mem_toFinset, mem_firstOccur]

/-- The source entropy computation agrees with the spec's formula. -/
theorem shannon_eq_formula (s : String) :
    compute_shannon_entropy s = entropy_formula s.data := by
  by_cases h : s = ""
  · subst h
    simp [compute_shannon_entropy, entropy_formula]
  · rw [compute_shannon_entropy, if_neg h, entropy_formula]
    congr 1
    rw [← toFinset_firstOccur s.data,
      List.sum_toFinset _ (nodup_firstOccur s.data), pyCounter, List.map_map]
    rfl

/-- The entropy formula only depends on the multiset of characters. -/
theorem entropy_formula_perm {l l' : List Char} (h : l.Perm l') :
    entropy_formula l = entropy_formula l' := by
  unfold entropy_formula
  rw [List.toFinset_eq_of_perm l l' h, h.length_eq]
  congr 1
  refine Finset.sum_congr rfl ?_
  intro c _
  rw [h.count_eq c]

theorem shannon_empty : compute_shannon_entropy "" = 0 := by
  simp [compute_shannon_entropy]

/-- A string of one repeated character has entropy 0. -/
theorem shannon_replicate (c : Char) (n : ℕ) (h : 0 < n) :
    compute_shannon_entropy (String.mk (List.replicate n c)) = 0 := by
  rw [shannon_eq_formula]
  show entropy_formula (List.replicate n c) = 0
  rw [entropy_formula, List.toFinset_replicate_of_ne_zero (Nat.pos_iff_ne_zero.mp h),
    Finset.sum_singleton, List.count_replicate_self, List.length_replicate]
  have hn : (n : ℝ) ≠ 0 := Nat.cast_ne_zero.mpr (Nat.pos_iff_ne_zero.mp h)
  rw [div_self hn, Real.logb_one]
  ring

/-- If every element of a list is one of two distinct values, the two
counts add up to the length. -/
theorem length_eq_count_add_count {a b : Char} (hab : a ≠ b) :
    ∀ (l : List Char), (∀ x ∈ l, x = a ∨ x = b) →
      l.length = l.count a + l.count b := by
  intro l
  induction l with
  | nil => intro _; simp
  | cons x t ih =>
    intro hall
    have ht : ∀ y ∈ t, y = a ∨ y = b := fun y hy => hall y (List.mem_cons_of_mem x hy)
    have hx := hall x (List.mem_cons_self x t)
    rcases hx with rfl | rfl
    · simp [List.count_cons, hab.symm, ih ht]
      omega
    · simp [List.count_cons, hab, ih ht]
      omega

/-- A string over exactly two distinct characters in equal proportion
has entropy 1. -/
theorem shannon_two_chars (s : String) (a b : Char) (hab : a ≠ b)
    (hall : ∀ x ∈ s.data, x = a ∨ x = b)
    (hcount : s.data.count a = s.data.count b)
    (hne : s.data ≠ []) : compute_shannon_entropy s = 1 := by
  rw [shannon_eq_formula]
  have hlen : s.data.length = 2 * s.data.count a := by
    have := length_eq_count_add_count hab s.data hall
    omega
  have hk0 : 0 < s.data.count a := by
    have hl0 : 0 < s.data.length := List.length_pos.mpr hne
    omega
  have ha : a ∈ s.data := by
    rw [← List.count_pos_iff]
    exact hk0
  have hb : b ∈ s.data := by
    rw [← List.count_pos_iff, ← hcount]
    exact hk0
  have hfin : s.data.toFinset = {a, b} := by
    ext x
    simp only [List.mem_toFinset, Finset.mem_insert, Finset.mem_singleton]
    constructor
    · intro hx
      exact hall x hx
    · rintro (rfl | rfl)
      · exact ha
      · exact hb
  rw [entropy_formula, hfin, Finset.sum_pair hab, ← hcount, hlen]
  have hkR : (0 : ℝ) < (s.data.count a : ℝ) := Nat.cast_pos.mpr hk0
  have hval : ((s.data.count a : ℕ) : ℝ) / ((2 * s.data.count a : ℕ) : ℝ) = 1 / 2 := by
    push_cast
    rw [div_eq_iff (by positivity)]
    ring
  rw [hval]
  have hlog : Real.logb 2 (1 / 2 : ℝ) = -1 := by
    rw [one_div, Real.logb_inv, Real.logb_self_eq_one one_lt_two]
  rw [hlog]
  ring

/-- Claim C6: `compute_shannon_entropy` returns the spec's formula
`H = -Σ p_i·log2(p_i)` over the character-frequency distribution
(`entropy_formula`); in particular it returns exactly 0 for the empty
string, exactly 0 for any string of one repeated character, and
exactly 1 for any string of two distinct characters in equal
proportion. -/
theorem shannon_entropy_values :
    (∀ s : String, compute_shannon_entropy s = entropy_formula s.data)
    ∧ compute_shannon_entropy "" = 0
    ∧ (∀ (c : Char) (n : ℕ), 0 < n →
        compute_shannon_entropy (String.mk (List.replicate n c)) = 0)
    ∧ (∀ (s : String) (a b : Char), a ≠ b → (∀ x ∈ s.data, x = a ∨ x = b) →
        s.data.count a = s.data.count b → s.data ≠ [] →
        compute_shannon_entropy s = 1) :=
  ⟨shannon_eq_formula, shannon_empty, shannon_replicate, shannon_two_chars⟩

/-- Witness for C6 at concrete inputs: "aaaa" and "ab". -/
theorem shannon_entropy_values_witness :
    (0 < 4 ∧ compute_shannon_entropy (String.mk (List.replicate 4 'a')) = 0)
    ∧ ('a' ≠ 'b' ∧ compute_shannon_entropy "ab" = 1) :=
  ⟨⟨by norm_num, shannon_entropy_values.2.2.1 'a' 4 (by norm_num)⟩,
   ⟨by decide, shannon_entropy_values.2.2.2 "ab" 'a' 'b' (by decide) (by decide)
      (by decide) (by decide)⟩⟩

/-- Claim C10: the entropy of a string depends only on the multiset of
its characters — permuting the characters leaves it unchanged. -/
theorem shannon_entropy_perm_invariant (s t : String) (h : s.data.Perm t.data) :
    compute_shannon_entropy s = compute_shannon_entropy t := by
  rw [shannon_eq_formula, shannon_eq_formula, entropy_formula_perm h]

/-- Witness for C10 at the concrete permutation "ab" / "ba". -/
theorem shannon_entropy_perm_invariant_witness :
    "ab".data.Perm "ba".data ∧ compute_shannon_entropy "ab" = compute_shannon_entropy "ba" :=
  ⟨by decide, shannon_entropy_perm_invariant "ab" "ba" (by decide)⟩

/-- The too-short message decomposed around its interesting pieces. -/
theorem too_short_msg_data (n m : ℕ) :
    (too_short_msg n m).data =
      "[input_too_short]".data ++ " Input is ".data ++ (toString n).data ++
        " characters; minimum is ".data ++ (toString m).data ++
        ". Describe the feature in plain English, at least ".data ++
        (toString m).data ++ " characters.".data := by
  have hsplit : ("[input_too_short] Input is " : String).data =
      "[input_too_short]".data ++ " Input is ".data := by decide
  simp [too_short_msg, String.data_append, hsplit, List.append_assoc]

/-- The low-entropy message decomposed around its tag. -/
theorem low_entropy_msg_data (e m : String) :
    (low_entropy_msg e m).data =
      "[input_low_entropy]".data ++
        " Input appears to be gibberish or repetitive (entropy ".data ++ e.data ++
        " bits/char; minimum is ".data ++ m.data ++
        "). Describe the feature in plain English with varied, meaningful words.".data := by
  have hsplit :
      ("[input_low_entropy] Input appears to be gibberish or repetitive (entropy " : String).data =
        "[input_low_entropy]".data ++
          " Input appears to be gibberish or repetitive (entropy ".data := by decide
  simp [low_entropy_msg, String.data_append, hsplit, List.append_assoc]

/-- Claim C5: any input shorter than the configured `min_chars`
threshold fails validation with the `[input_too_short]` tag, whatever
its content, and the message carries the configured threshold. -/
theorem validate_min_chars_failure (fmt2f fmtF : ℝ → String)
    (minChars : ℕ) (minEntropy : ℝ) (value : String)
    (h : value.length < minChars) :
    validate_user_query fmt2f fmtF minChars minEntropy value
      = Except.error (too_short_msg value.length minChars)
    ∧ "[input_too_short]".data <:+: (too_short_msg value.length minChars).data
    ∧ (toString minChars).data <:+: (too_short_msg value.length minChars).data := by
  refine ⟨by rw [validate_user_query, if_pos h], ?_, ?_⟩
  · rw [too_short_msg_data]
    simp only [List.append_assoc]
    exact (List.prefix_append _ _).isInfix
  · refine ⟨"[input_too_short]".data ++ " Input is ".data ++ (toString value.length).data ++
      " characters; minimum is ".data,
      ". Describe the feature in plain English, at least ".data ++
        (toString minChars).data ++ " characters.".data, ?_⟩
    rw [too_short_msg_data]
    simp [List.append_assoc]

/-- Witness for C5 at the concrete input "hi" with the default
thresholds. -/
theorem validate_min_chars_failure_witness :
    ("hi" : String).length < spec_min_chars
    ∧ (validate_user_query (fun _ => "") (fun _ => "") spec_min_chars spec_min_entropy "hi"
        = Except.error (too_short_msg "hi".length spec_min_chars)
      ∧ "[input_too_short]".data <:+: (too_short_msg "hi".length spec_min_chars).data
      ∧ (toString spec_min_chars).data <:+: (too_short_msg "hi".length spec_min_chars).data) :=
  ⟨by decide, validate_min_chars_failure (fun _ => "") (fun _ => "")
    spec_min_chars spec_min_entropy "hi" (by decide)⟩

theorem shannon_aaaa : compute_shannon_entropy "aaaa" = 0 := by
  have h4 : ("aaaa" : String) = String.mk (List.replicate 4 'a') := by decide
  rw [h4]
  exact shannon_replicate 'a' 4 (by norm_num)

set_option maxRecDepth 8192 in
/-- Counterexample for C4: the input "aaaa" violates both admission
rules (too short and zero entropy), yet validation surfaces only the
`[input_too_short]` failure — the `[input_low_entropy]` tag does not
appear. -/
theorem validate_both_rules_counterexample :
    ("aaaa" : String).length < 20
    ∧ compute_shannon_entropy "aaaa" < 5 / 2
    ∧ validate_user_query (fun _ => "") (fun _ => "") 20 (5 / 2) "aaaa"
        = Except.error (too_short_msg 4 20)
    ∧ ¬ ("[input_low_entropy]".data <:+: (too_short_msg 4 20).data) := by
  refine ⟨by decide, ?_, ?_, by decide⟩
  · rw [shannon_aaaa]
    norm_num
  · rw [validate_user_query, if_pos (by decide : ("aaaa" : String).length < 20)]
    rfl

/-- Claim C4 (amended): validation fails fast on the first violated
rule — an input violating both rules yields exactly the tagged
`[input_too_short]` failure; the `[input_low_entropy]` failure (with
its own tag) surfaces only when the length check passes. -/
theorem validate_fail_fast :
    (∀ (fmt2f fmtF : ℝ → String) (minChars : ℕ) (minEntropy : ℝ) (value : String),
      value.length < minChars → compute_shannon_entropy value < minEntropy →
      validate_user_query fmt2f fmtF minChars minEntropy value
        = Except.error (too_short_msg value.length minChars))
    ∧ (∀ (fmt2f fmtF : ℝ → String) (minChars : ℕ) (minEntropy : ℝ) (value : String),
      ¬ value.length < minChars → compute_shannon_entropy value < minEntropy →
      validate_user_query fmt2f fmtF minChars minEntropy value
        = Except.error
            (low_entropy_msg (fmt2f (compute_shannon_entropy value)) (fmtF minEntropy))
      ∧ "[input_low_entropy]".data <:+:
          (low_entropy_msg (fmt2f (compute_shannon_entropy value)) (fmtF minEntropy)).data) := by
  constructor
  · intro fmt2f fmtF minChars minEntropy value hl _
    rw [validate_user_query, if_pos hl]
  · intro fmt2f fmtF minChars minEntropy value hl he
    refine ⟨by rw [validate_user_query, if_neg hl, if_pos he], ?_⟩
    rw [low_entropy_msg_data]
    simp only [List.append_assoc]
    exact (List.prefix_append _ _).isInfix

/-- Witness for C4 (amended) at the concrete input "aaaa", which
violates both rules under thresholds (20, 2.5) and only the entropy
rule under thresholds (2, 2.5). -/
theorem validate_fail_fast_witness :
    (("aaaa" : String).length < 20 ∧ compute_shannon_entropy "aaaa" < 5 / 2
      ∧ validate_user_query (fun _ => "") (fun _ => "") 20 (5 / 2) "aaaa"
          = Except.error (too_short_msg "aaaa".length 20))
    ∧ (¬ ("aaaa" : String).length < 2 ∧ compute_shannon_entropy "aaaa" < 5 / 2
      ∧ (validate_user_query (fun _ => "") (fun _ => "") 2 (5 / 2) "aaaa"
          = Except.error (low_entropy_msg "" "")
        ∧ "[input_low_entropy]".data <:+: (low_entropy_msg "" "").data)) := by
  have he : compute_shannon_entropy "aaaa" < 5 / 2 := by
    rw [shannon_aaaa]; norm_num
  exact ⟨⟨by decide, he,
      validate_fail_fast.1 (fun _ => "") (fun _ => "") 20 (5 / 2) "aaaa" (by decide) he⟩,
    ⟨by decide, he,
      validate_fail_fast.2 (fun _ => "") (fun _ => "") 2 (5 / 2) "aaaa" (by decide) he⟩⟩

/-! ### Step bookkeeping lemmas -/

theorem setup_branch_ctr (env : FlowEnv) (s : FlowState) :
    (setup_branch env s).1.review_iterations = s.review_iterations := by
  simp only [setup_branch]
  repeat' split
  all_goals rfl

theorem research_codebase_ctr (env : FlowEnv) (s : FlowState) (sig : String) :
    (research_codebase env s sig).1.review_iterations = s.review_iterations := by
  simp only [research_codebase]
  repeat' split
  all_goals rfl

theorem implement_changes_ctr (env : FlowEnv) (s : FlowState) (sig : String) :
    (implement_changes env s sig).1.review_iterations = s.review_iterations := by
  simp only [implement_changes]
  repeat' split
  all_goals rfl

theorem review_changes_ctr_le (env : FlowEnv) (s : FlowState) (sig : String) :
    (review_changes env s sig).1.review_iterations ≤ s.review_iterations + 1 := by
  simp only [review_changes]
  repeat' split
  all_goals simp

theorem commit_and_push_ctr (env : FlowEnv) (s : FlowState) :
    (commit_and_push env s).1.review_iterations = s.review_iterations := by
  simp only [commit_and_push]
  repeat' split
  all_goals rfl

theorem setup_branch_err (env : FlowEnv) (s : FlowState)
    (h : s.final_status = "error" → s.error ≠ none) :
    (setup_branch env s).1.final_status = "error" → (setup_branch env s).1.error ≠ none := by
  simp only [setup_branch]
  repeat' split
  all_goals simp_all

theorem research_codebase_err (env : FlowEnv) (s : FlowState) (sig : String)
    (h : s.final_status = "error" → s.error ≠ none) :
    (research_codebase env s sig).1.final_status = "error" →
      (research_codebase env s sig).1.error ≠ none := by
  simp only [research_codebase]
  repeat' split
  all_goals simp_all

theorem implement_changes_err (env : FlowEnv) (s : FlowState) (sig : String)
    (h : s.final_status = "error" → s.error ≠ none) :
    (implement_changes env s sig).1.final_status = "error" →
      (implement_changes env s sig).1.error ≠ none := by
  simp only [implement_changes]
  repeat' split
  all_goals simp_all

theorem review_changes_err (env : FlowEnv) (s : FlowState) (sig : String)
    (h : s.final_status = "error" → s.error ≠ none) :
    (review_changes env s sig).1.final_status = "error" →
      (review_changes env s sig).1.error ≠ none := by
  simp only [review_changes]
  repeat' split
  all_goals simp_all

theorem commit_and_push_err (env : FlowEnv) (s : FlowState)
    (h : s.final_status = "error" → s.error ≠ none) :
    (commit_and_push env s).1.final_status = "error" →
      (commit_and_push env s).1.error ≠ none := by
  simp only [commit_and_push]
  repeat' split
  all_goals simp_all

theorem setup_branch_errpersist (env : FlowEnv) (s : FlowState)
    (h : s.error ≠ none) : (setup_branch env s).1.error ≠ none := by
  simp only [setup_branch]
  repeat' split
  all_goals simp_all

theorem research_codebase_errpersist (env : FlowEnv) (s : FlowState) (sig : String)
    (h : s.error ≠ none) : (research_codebase env s sig).1.error ≠ none := by
  simp only [research_codebase]
  repeat' split
  all_goals simp_all

theorem implement_changes_errpersist (env : FlowEnv) (s : FlowState) (sig : String)
    (h : s.error ≠ none) : (implement_changes env s sig).1.error ≠ none := by
  simp only [implement_changes]
  repeat' split
  all_goals simp_all

theorem review_changes_errpersist (env : FlowEnv) (s : FlowState) (sig : String)
    (h : s.error ≠ none) : (review_changes env s sig).1.error ≠ none := by
  simp only [review_changes]
  repeat' split
  all_goals simp_all

theorem commit_and_push_errpersist (env : FlowEnv) (s : FlowState)
    (h : s.error ≠ none) : (commit_and_push env s).1.error ≠ none := by
  simp only [commit_and_push]
  repeat' split
  all_goals simp_all

theorem runLoop_err (env : FlowEnv) :
    ∀ (fuel : Nat) (s : FlowState) (sig : String),
      (s.final_status = "error" → s.error ≠ none) →
      ((runLoop env fuel s sig).2.1.final_status = "error" →
        (runLoop env fuel s sig).2.1.error ≠ none) := by
  intro fuel
  induction fuel with
  | zero => intro s sig h; exact h
  | succ n ih =>
    intro s sig h
    simp only [runLoop]
    split
    · exact ih _ _ (review_changes_err _ _ _ (implement_changes_err _ _ _ h))
    · exact commit_and_push_err _ _ (review_changes_err _ _ _ (implement_changes_err _ _ _ h))

theorem runLoop_errpersist (env : FlowEnv) :
    ∀ (fuel : Nat) (s : FlowState) (sig : String),
      s.error ≠ none → (runLoop env fuel s sig).2.1.error ≠ none := by
  intro fuel
  induction fuel with
  | zero => intro s sig h; exact h
  | succ n ih =>
    intro s sig h
    simp only [runLoop]
    split
    · exact ih _ _ (review_changes_errpersist _ _ _ (implement_changes_errpersist _ _ _ h))
    · exact commit_and_push_errpersist _ _
        (review_changes_errpersist _ _ _ (implement_changes_errpersist _ _ _ h))

/-- Counterexample for C2: a run in which only the review step fails
(fail-open) terminates with `error` non-null and `final_status`
"completed". -/
theorem review_error_completed_counterexample :
    (flow_run envReviewBoom s0Review).2.1.error = some "Review failed: boom"
    ∧ (flow_run envReviewBoom s0Review).2.1.final_status = "completed" := by
  constructor <;> rfl

/-- Claim C2 (amended): in any run started from a pending state, the
`error` field is never cleared, and a terminal `final_status` of
"error" implies `error` is non-null.  The converse direction of the
original claim fails: the review step is fail-open and even error
signals are routed to `commit_and_push`, so a run may terminate with
`error` non-null and `final_status` "completed". -/
theorem flow_error_status (env : FlowEnv) (s0 : FlowState)
    (h : s0.final_status = "pending") :
    ((flow_run env s0).2.1.final_status = "error" → (flow_run env s0).2.1.error ≠ none)
    ∧ (s0.error ≠ none → (flow_run env s0).2.1.error ≠ none) := by
  have h0 : s0.final_status = "error" → s0.error ≠ none := by
    rw [h]
    intro hc
    simp at hc
  constructor
  · simp only [flow_run]
    exact runLoop_err env 4 _ _ (research_codebase_err _ _ _ (setup_branch_err _ _ h0))
  · intro he
    simp only [flow_run]
    exact runLoop_errpersist env 4 _ _
      (research_codebase_errpersist _ _ _ (setup_branch_errpersist _ _ he))

/-- Witness for C2 (amended): a run with a missing repository and a
failing commit tool terminates with status "error" and a non-null
error. -/
theorem flow_error_status_witness :
    ({} : FlowState).final_status = "pending"
    ∧ (flow_run envNoRepo {}).2.1.final_status = "error"
    ∧ (flow_run envNoRepo {}).2.1.error ≠ none :=
  ⟨rfl, rfl, (flow_error_status envNoRepo {} rfl).1 rfl⟩

theorem runLoop_ctr (env : FlowEnv) :
    ∀ (fuel : Nat) (s : FlowState) (sig : String),
      s.review_iterations + fuel ≤ 4 →
      (∀ t ∈ (runLoop env fuel s sig).1, t.review_iterations ≤ 4)
      ∧ (runLoop env fuel s sig).2.1.review_iterations ≤ 4 := by
  intro fuel
  induction fuel with
  | zero =>
    intro s sig h
    refine ⟨?_, by simpa using h⟩
    intro t ht
    simp [runLoop] at ht
  | succ n ih =>
    intro s sig h
    have h1 := implement_changes_ctr env s sig
    have h2 := review_changes_ctr_le env (implement_changes env s sig).1
      (implement_changes env s sig).2
    rw [h1] at h2
    simp only [runLoop]
    split
    · have hrec := ih (review_changes env (implement_changes env s sig).1
        (implement_changes env s sig).2).1 "implement_changes" (by omega)
      refine ⟨?_, hrec.2⟩
      intro t ht
      simp only [List.mem_cons] at ht
      rcases ht with rfl | rfl | ht
      · omega
      · omega
      · exact hrec.1 t ht
    · have h3 := commit_and_push_ctr env (review_changes env (implement_changes env s sig).1
        (implement_changes env s sig).2).1
      refine ⟨fun t ht => ?_, ?_⟩
      · simp only [List.mem_cons] at ht
        rcases ht with rfl | rfl | rfl | ht
        · omega
        · omega
        · omega
        · simp at ht
      · show (commit_and_push env (review_changes env (implement_changes env s sig).1
          (implement_changes env s sig).2).1).1.review_iterations ≤ 4
        omega

/-- Claim C1: each execution of the review step's body (a non-error
implementation signal) increments `review_iterations` by exactly 1;
once the incremented counter exceeds 3 the step forces
`review_passed := true` and returns "passed" with a result that does
not depend on the reviewer oracle; and along any run from a fresh
state, `review_iterations` never exceeds 4. -/
theorem review_iterations_contract :
    (∀ (env : FlowEnv) (s : FlowState) (sig : String), sig ≠ "error" →
      (review_changes env s sig).1.review_iterations = s.review_iterations + 1)
    ∧ (∀ (env : FlowEnv) (s : FlowState) (sig : String), sig ≠ "error" →
      3 ≤ s.review_iterations →
      review_changes env s sig =
        ({ s with review_iterations := s.review_iterations + 1, review_passed := true },
          "passed"))
    ∧ (∀ (env : FlowEnv) (s0 : FlowState), s0.review_iterations = 0 →
      ∀ t ∈ (flow_run env s0).1, t.review_iterations ≤ 4) := by
  refine ⟨?_, ?_, ?_⟩
  · intro env s sig h
    simp only [review_changes, if_neg h]
    repeat' split
    all_goals rfl
  · intro env s sig h h3
    simp only [review_changes, if_neg h]
    have hgt : ({ s with review_iterations := s.review_iterations + 1 } :
        FlowState).review_iterations > 3 := by
      show s.review_iterations + 1 > 3
      omega
    rw [if_pos hgt]
  · intro env s0 h0 t ht
    have hs1 := setup_branch_ctr env s0
    have hs2 := research_codebase_ctr env (setup_branch env s0).1 (setup_branch env s0).2
    have hloop := runLoop_ctr env 4
      (research_codebase env (setup_branch env s0).1 (setup_branch env s0).2).1
      (research_codebase env (setup_branch env s0).1 (setup_branch env s0).2).2
      (by omega)
    simp only [flow_run, List.mem_cons] at ht
    rcases ht with rfl | rfl | rfl | ht
    · omega
    · omega
    · omega
    · exact hloop.1 t ht

/-- Witness for C1 at concrete inputs: a fresh state, a state whose
counter is already 3, and the head of a concrete run's trace. -/
theorem review_iterations_contract_witness :
    ("success" ≠ "error"
      ∧ (review_changes envAllOk {} "success").1.review_iterations
          = ({} : FlowState).review_iterations + 1)
    ∧ ("success" ≠ "error" ∧ 3 ≤ st3.review_iterations
      ∧ review_changes envAllOk st3 "success"
          = ({ st3 with review_iterations := st3.review_iterations + 1, review_passed := true },
              "passed"))
    ∧ (({} : FlowState).review_iterations = 0
      ∧ ({} : FlowState) ∈ (flow_run envAllOk {}).1
      ∧ ({} : FlowState).review_iterations ≤ 4) := by
  have hm : ({} : FlowState) ∈ (flow_run envAllOk {}).1 := by
    simp only [flow_run]
    exact List.mem_cons_self _ _
  exact ⟨⟨by decide, review_iterations_contract.1 envAllOk {} "success" (by decide)⟩,
    ⟨by decide, by decide,
      review_iterations_contract.2.1 envAllOk st3 "success" (by decide) (by decide)⟩,
    ⟨rfl, hm, review_iterations_contract.2.2 envAllOk {} rfl {} hm⟩⟩

/-- Claim C9: when the repository path does not exist, `setup_branch`
only sets `error` and `final_status` (the latter to "error") and
returns the "error" signal; every other state field is unchanged. -/
theorem setup_branch_missing_repo_frame (env : FlowEnv) (s : FlowState)
    (h : env.repoExists = false) :
    setup_branch env s =
      ({ s with
          error := some ("Repository path does not exist: " ++ env.resolve s.repo_path),
          final_status := "error" }, "error") := by
  simp [setup_branch, h]

/-- Witness for C9 at the concrete environment whose repository is
missing and the default state. -/
theorem setup_branch_missing_repo_frame_witness :
    envNoRepo.repoExists = false
    ∧ setup_branch envNoRepo {} =
      ({ ({} : FlowState) with
          error := some ("Repository path does not exist: " ++
            envNoRepo.resolve ({} : FlowState).repo_path),
          final_status := "error" }, "error") :=
  ⟨rfl, setup_branch_missing_repo_frame envNoRepo {} rfl⟩

/-- Counterexample for C7: for the 60-character issue `issue60`, the
generated branch name is the prefix plus the slug of the first 50
characters, not the slug of the whole issue text. -/
theorem setup_branch_slug_counterexample :
    (setup_branch envAllOk s0Slug).1.branch_name
        = some ("sheep/" ++ slug_spec (String.mk (issue60.data.take 50)))
    ∧ (setup_branch envAllOk s0Slug).1.branch_name ≠ some ("sheep/" ++ slug_spec issue60) := by
  constructor
  · rfl
  · decide

/-- Claim C7 (amended): when no branch name is supplied and the
repository exists, `setup_branch` generates the branch name as the
configured prefix followed by the slug of the first 50 characters of
the issue text (lowercased, non-alphanumerics to hyphens, hyphen runs
collapsed, leading/trailing hyphens stripped). -/
theorem setup_branch_slug (env : FlowEnv) (s : FlowState)
    (hrepo : env.repoExists = true) (hb : s.branch_name = none) :
    (setup_branch env s).1.branch_name =
      some (env.branchPrefix ++ slug_spec (String.mk (s.issue_description.data.take 50))) := by
  have hslug : slug_spec (String.mk (s.issue_description.data.take 50))
      = String.mk (slugify s.issue_description.data) := by
    simp [slug_spec, slugify]
  rw [hslug]
  simp only [setup_branch, hrepo, hb]
  repeat' split
  all_goals simp_all [optTruthy]

/-- Witness for C7 (amended) at the concrete 60-character issue. -/
theorem setup_branch_slug_witness :
    envAllOk.repoExists = true ∧ s0Slug.branch_name = none
    ∧ (setup_branch envAllOk s0Slug).1.branch_name
        = some (envAllOk.branchPrefix ++
            slug_spec (String.mk (s0Slug.issue_description.data.take 50))) :=
  ⟨rfl, rfl, setup_branch_slug envAllOk s0Slug rfl rfl⟩

/-- Claim C3: the (spec-modelled) `route_after_setup` router returns
"error" on the error signal regardless of fast mode, and routes
success to `implement_changes` in fast mode and to `research_codebase`
otherwise. -/
theorem route_after_setup_contract :
    (∀ fast_mode : Bool, route_after_setup fast_mode "error" = "error")
    ∧ route_after_setup true "success" = "implement_changes"
    ∧ route_after_setup false "success" = "research_codebase" :=
  ⟨fun _ => rfl, rfl, rfl⟩

/-- Counterexample for C8: with an existing repository path but a git
subprocess whose launch itself fails (missing `git` binary), the
exception propagates out of `GitStatusTool._run` — only
`CalledProcessError` is caught. -/
theorem git_status_propagates_counterexample :
    git_status_run envGitBroken "/repo"
      = Except.error (PyExc.otherExc "git executable not found") := rfl

/-- Claim C8 (amended): `FileReadTool._run` returns a descriptive
string on every input and environment outcome, and
`GitStatusTool._run` returns a descriptive string whenever the git
subprocess either completes or fails with `CalledProcessError`; an
OS-level exception from launching the subprocess, however,
propagates. -/
theorem tool_results_are_strings :
    (∀ (env : FileEnv) (fp : String) (sl el : Option Int),
      ∃ m, file_read_run env fp sl el = Except.ok m)
    ∧ (∀ (env : GitEnv) (rp : String),
      (∀ args m, env.runGit args ≠ Except.error (PyExc.otherExc m)) →
      ∃ m, git_status_run env rp = Except.ok m) := by
  constructor
  · intro env fp sl el
    simp only [file_read_run]
    repeat' split
    all_goals exact ⟨_, rfl⟩
  · intro env rp h
    simp only [git_status_run, run_git]
    split
    · exact ⟨_, rfl⟩
    · split
      · split
        · exact ⟨_, rfl⟩
        · exact ⟨_, rfl⟩
      · exact ⟨_, rfl⟩
      · next m heq => exact absurd heq (h _ m)

/-- Witness for C8 (amended): a concrete environment in which every
git command completes. -/
theorem tool_results_are_strings_witness :
    (∀ args m, envGitOk.runGit args ≠ Except.error (PyExc.otherExc m))
    ∧ (∃ m, git_status_run envGitOk "/repo" = Except.ok m) := by
  have h : ∀ args m, envGitOk.runGit args ≠ Except.error (PyExc.otherExc m) := by
    intro args m
    simp [envGitOk]
  exact ⟨h, tool_results_are_strings.2 envGitOk "/repo" h⟩
